import Mathlib

/-!
# pkg/converter/pod_converter.go

A shallow embedding of the pod converter of the policy controller:
`BuildWorkloadEndpointData`, `MergeWorkloadEndpointData`, `podConverter.Convert`
and `podConverter.GetKey`.

Go maps are reference values.  The embedding keeps the maps in an explicit
store and lets structs hold map references, so that two structs holding the
same reference see each other's writes, exactly as in Go.
-/

namespace Converter

/-! ## Go maps and the store -/

/-- The entries of a Go `map[string]string`, as an association list whose
keys are kept distinct by `GoMap.assign`. -/
abbrev GoMap := List (String × String)

/-- Go `v, ok := m[k]`: the value stored under `k`, if any. -/
def GoMap.lookup : GoMap → String → Option String
  | [], _ => none
  | (k', v') :: rest, k => if k' = k then some v' else GoMap.lookup rest k

/-- Go `m[k] = v` on the entries: overwrite the value under `k` when the key
is present, add the entry otherwise. -/
def GoMap.assign : GoMap → String → String → GoMap
  | [], k, v => [(k, v)]
  | (k', v') :: rest, k, v =>
    if k' = k then (k, v) :: rest else (k', v') :: GoMap.assign rest k v

/-- Go `len(m)`. -/
def GoMap.len (m : GoMap) : Nat := m.length

/-- A value of type `map[string]string`: `none` is the nil map, `some a` is a
reference to the map stored at address `a`. -/
abbrev MapRef := Option Nat

/-- Fields of `metav1.ObjectMeta` read by the converter. -/
structure ObjectMeta where
  Name : String
  Namespace : String
  Labels : MapRef
  deriving DecidableEq, Repr

/-- The pod type `k8sApiV1.Pod`, reduced to its embedded `ObjectMeta`. -/
structure Pod where
  ObjectMeta : ObjectMeta
  deriving DecidableEq, Repr

/-- Promoted field `pod.Namespace`. -/
def Pod.Namespace (pod : Pod) : String := pod.ObjectMeta.Namespace

/-- Promoted field `pod.Name`. -/
def Pod.Name (pod : Pod) : String := pod.ObjectMeta.Name

/-- The memory the converter works on: the pod objects behind `*v1.Pod`
pointers, the contents of the maps behind map references, and the next free
map address. -/
structure Store where
  pods : Nat → Pod
  maps : Nat → GoMap
  next : Nat

/-- The entries seen through a map reference; reading a nil map finds no
entry. -/
def Store.labels (σ : Store) : MapRef → GoMap
  | none => []
  | some a => σ.maps a

/-- Go `map[string]string{}`: allocate an empty map, return its address. -/
def Store.newMap (σ : Store) : Nat × Store :=
  (σ.next, { σ with maps := fun b => if b = σ.next then [] else σ.maps b, next := σ.next + 1 })

/-- Go `m[k] = v` for the map stored at address `a`. -/
def Store.mapAssign (σ : Store) (a : Nat) (k v : String) : Store :=
  { σ with maps := fun b => if b = a then GoMap.assign (σ.maps a) k v else σ.maps b }

/-! ## Data types of the converter -/

/-- Label which represents the namespace a given pod belongs to. -/
def k8sNamespaceLabel : String := "calico/k8s_ns"

/-- The struct `WorkloadEndpointData`. -/
structure WorkloadEndpointData where
  Key : String
  Labels : MapRef
  deriving DecidableEq, Repr

/-- Fields of `api.WorkloadEndpointMetadata` used by the converter. -/
structure WorkloadEndpointMetadata where
  Workload : String
  Labels : MapRef
  deriving DecidableEq, Repr

/-- The type `api.WorkloadEndpoint`: its metadata, and `rest` for every other
field of the endpoint (type metadata, spec, remaining metadata). -/
structure WorkloadEndpoint (ρ : Type) where
  Metadata : WorkloadEndpointMetadata
  rest : ρ

/-- Go `api.NewWorkloadEndpoint()`: workload and labels start at their zero
values. -/
def NewWorkloadEndpoint {ρ : Type} [Inhabited ρ] : WorkloadEndpoint ρ :=
  { Metadata := { Workload := "", Labels := none }, rest := default }

/-- A Go `interface{}` value as the converter can receive it, by dynamic type:
a `*v1.Pod` (nil or the address of a pod), a `WorkloadEndpointData`, or a value
of any other type, named by `typeName`. -/
inductive Obj where
  | podPtr (p : Option Nat)
  | wepData (d : WorkloadEndpointData)
  | other (typeName : String)
  deriving DecidableEq, Repr

/-- The ways the converter stops the program.  `TypeMismatch` is the
`log.Fatalf("can not convert object ... Object is not of type *v1.Pod")` of
`Convert`; `KeyMismatch` is the
`log.Fatalf("Bad attempt to merge data for %s into wep %s", upd.Key, wep.Metadata.Workload)`
of `MergeWorkloadEndpointData`, with its two arguments. -/
inductive Failure where
  | TypeMismatch
  | KeyMismatch (updKey wepWorkload : String)
  deriving DecidableEq, Repr

/-- How a call ends: it returns a value, it logs fatally and exits the
process, or it panics (nil dereference, failed type assertion). -/
inductive Outcome (α : Type) where
  | ret (a : α)
  | fatal (f : Failure)
  | panic
  deriving DecidableEq, Repr

/-- A Go `error` value; `none` is nil. -/
abbrev GoError := Option String

/-! ## The functions of pod_converter.go -/

/-- Go `BuildWorkloadEndpointData`: the struct literal copies the workload
string and the labels map value, that is, the map reference. -/
def BuildWorkloadEndpointData {ρ : Type} (wep : WorkloadEndpoint ρ) : WorkloadEndpointData :=
  { Key := wep.Metadata.Workload, Labels := wep.Metadata.Labels }

/-- Go `MergeWorkloadEndpointData`, for a non-nil `wep`.  The second component
is the endpoint behind `wep` when the call ends.  On a key mismatch
`log.Fatalf` exits before the assignment. -/
def MergeWorkloadEndpointData {ρ : Type} (wep : WorkloadEndpoint ρ) (upd : WorkloadEndpointData) :
    Outcome Unit × WorkloadEndpoint ρ :=
  if wep.Metadata.Workload ≠ upd.Key then
    (Outcome.fatal (Failure.KeyMismatch upd.Key wep.Metadata.Workload), wep)
  else
    (Outcome.ret (), { wep with Metadata := { wep.Metadata with Labels := upd.Labels } })

/-- Go `(*podConverter).Convert`.  The second component is the store when the
call ends. -/
def Convert (σ : Store) (k8sObj : Obj) : Outcome (Obj × GoError) × Store :=
  match k8sObj with
  | Obj.podPtr p =>
    match p with
    | none => (Outcome.panic, σ)
    | some a =>
      let pod := σ.pods a
      let endpoint : WorkloadEndpoint Unit := NewWorkloadEndpoint
      let endpoint : WorkloadEndpoint Unit :=
        { endpoint with Metadata :=
            { endpoint.Metadata with Workload := pod.Namespace ++ "." ++ pod.Name } }
      let (labels, σ1) :=
        match pod.ObjectMeta.Labels with
        | some r => (r, σ)
        | none => σ.newMap
      let endpoint : WorkloadEndpoint Unit :=
        { endpoint with Metadata := { endpoint.Metadata with Labels := some labels } }
      let σ2 := σ1.mapAssign labels k8sNamespaceLabel pod.Namespace
      (Outcome.ret (Obj.wepData (BuildWorkloadEndpointData endpoint), none), σ2)
  | _ => (Outcome.fatal Failure.TypeMismatch, σ)

/-- Go `(*podConverter).GetKey`: the type assertion panics on any other
dynamic type. -/
def GetKey (obj : Obj) : Outcome String :=
  match obj with
  | Obj.wepData e => Outcome.ret e.Key
  | _ => Outcome.panic

/-! ## Concrete inputs -/

/-- A store with the pod `prod/web-1` at address 0, labelled `app=web`. -/
def exStore : Store :=
  { pods := fun _ => { ObjectMeta := { Name := "web-1", Namespace := "prod", Labels := some 0 } },
    maps := fun _ => [("app", "web")],
    next := 1 }

/-- A store with the pod `prod/web-1` at address 0, without labels. -/
def exStoreNil : Store :=
  { pods := fun _ => { ObjectMeta := { Name := "web-1", Namespace := "prod", Labels := none } },
    maps := fun _ => [],
    next := 0 }

/-- A store with the pod `prod/web-1` at address 0, whose labels already
hold the namespace label with another value. -/
def exStoreMarked : Store :=
  { pods := fun _ => { ObjectMeta := { Name := "web-1", Namespace := "prod", Labels := some 0 } },
    maps := fun _ => [("calico/k8s_ns", "dev"), ("app", "web")],
    next := 1 }

/-- A store with two maps: `app=web` at address 0 and `old=x` at address 1. -/
def exStoreTwo : Store :=
  { pods := fun _ => { ObjectMeta := { Name := "web-1", Namespace := "prod", Labels := some 0 } },
    maps := fun b => if b = 0 then [("app", "web")] else [("old", "x")],
    next := 2 }

/-- An endpoint for workload `prod.web-1` whose labels are the map at
address 1. -/
def exEndpoint : WorkloadEndpoint Unit :=
  { Metadata := { Workload := "prod.web-1", Labels := some 1 }, rest := () }

/-- An update for workload `prod.web-1` whose labels are the map at
address 0. -/
def exUpdate : WorkloadEndpointData :=
  { Key := "prod.web-1", Labels := some 0 }

/-- An update for another workload. -/
def exUpdateOther : WorkloadEndpointData :=
  { Key := "prod.web-2", Labels := some 0 }

/-- A store with the pod `a.b/c` at address 0 and the pod `a/b.c` at every
other address. -/
def exStoreDots : Store :=
  { pods := fun b =>
      if b = 0 then { ObjectMeta := { Name := "c", Namespace := "a.b", Labels := none } }
      else { ObjectMeta := { Name := "b.c", Namespace := "a", Labels := none } },
    maps := fun _ => [],
    next := 0 }

/-- A store whose pods have an empty namespace, an empty name and nil
labels. -/
def exStoreEmpty : Store :=
  { pods := fun _ => { ObjectMeta := { Name := "", Namespace := "", Labels := none } },
    maps := fun _ => [],
    next := 0 }

/-- An endpoint for workload `prod.web-1` with labels at address 1 and a
number standing for its other fields. -/
def exEndpointRest : WorkloadEndpoint Nat :=
  { Metadata := { Workload := "prod.web-1", Labels := some 1 }, rest := 7 }

/-- A store with the pod `prod/web-1` at address 0, whose labels are the map
at address 3, a separate map holding `app=web` and `calico/k8s_ns=prod`. -/
def exStoreCopy : Store :=
  { pods := fun _ => { ObjectMeta := { Name := "web-1", Namespace := "prod", Labels := some 3 } },
    maps := fun b => if b = 3 then [("app", "web"), ("calico/k8s_ns", "prod")] else [],
    next := 4 }

/-! ## Lemmas on maps and on the shape of `Convert` -/

theorem GoMap.lookup_assign_self (m : GoMap) (k v : String) :
    (GoMap.assign m k v).lookup k = some v := by
  induction m with
  | nil => simp [GoMap.assign, GoMap.lookup]
  | cons e rest ih =>
    obtain ⟨k', v'⟩ := e
    by_cases hk : k' = k
    · simp [GoMap.assign, GoMap.lookup, hk]
    · simp [GoMap.assign, GoMap.lookup, hk, ih]

theorem GoMap.lookup_assign_ne (m : GoMap) (k v k2 : String) (h : k2 ≠ k) :
    (GoMap.assign m k v).lookup k2 = m.lookup k2 := by
  induction m with
  | nil => simp [GoMap.assign, GoMap.lookup, Ne.symm h]
  | cons e rest ih =>
    obtain ⟨k', v'⟩ := e
    by_cases hk : k' = k
    · subst hk
      simp [GoMap.assign, GoMap.lookup, Ne.symm h]
    · by_cases hk2 : k' = k2
      · subst hk2
        simp [GoMap.assign, GoMap.lookup, hk]
      · simp [GoMap.assign, GoMap.lookup, hk, hk2, ih]

theorem GoMap.lookup_assign (m : GoMap) (k v k2 : String) :
    (GoMap.assign m k v).lookup k2 = if k2 = k then some v else m.lookup k2 := by
  by_cases h : k2 = k
  · subst h
    simp [GoMap.lookup_assign_self]
  · simp [h, GoMap.lookup_assign_ne]

theorem Convert_pod_labelled (σ : Store) (a r : Nat)
    (h : (σ.pods a).ObjectMeta.Labels = some r) :
    Convert σ (Obj.podPtr (some a)) =
      (Outcome.ret (Obj.wepData
          { Key := (σ.pods a).Namespace ++ "." ++ (σ.pods a).Name, Labels := some r }, none),
        σ.mapAssign r k8sNamespaceLabel (σ.pods a).Namespace) := by
  simp [Convert, h, BuildWorkloadEndpointData, NewWorkloadEndpoint]

theorem Convert_pod_unlabelled (σ : Store) (a : Nat)
    (h : (σ.pods a).ObjectMeta.Labels = none) :
    Convert σ (Obj.podPtr (some a)) =
      (Outcome.ret (Obj.wepData
          { Key := (σ.pods a).Namespace ++ "." ++ (σ.pods a).Name, Labels := some σ.next }, none),
        σ.newMap.2.mapAssign σ.next k8sNamespaceLabel (σ.pods a).Namespace) := by
  simp [Convert, h, BuildWorkloadEndpointData, NewWorkloadEndpoint, Store.newMap]

theorem Convert_pod_key (σ : Store) (a : Nat) :
    ∃ d σ', Convert σ (Obj.podPtr (some a)) = (Outcome.ret (Obj.wepData d, none), σ') ∧
      d.Key = (σ.pods a).Namespace ++ "." ++ (σ.pods a).Name := by
  cases h : (σ.pods a).ObjectMeta.Labels with
  | none => exact ⟨_, _, Convert_pod_unlabelled σ a h, rfl⟩
  | some r => exact ⟨_, _, Convert_pod_labelled σ a r h, rfl⟩

theorem sep_append_inj (c : Char) :
    ∀ (l1 l2 r1 r2 : List Char), c ∉ l1 → c ∉ l2 →
      l1 ++ c :: r1 = l2 ++ c :: r2 → l1 = l2 ∧ r1 = r2 := by
  intro l1
  induction l1 with
  | nil =>
    intro l2 r1 r2 _ h2 heq
    cases l2 with
    | nil => simpa using heq
    | cons x xs =>
      simp only [List.nil_append, List.cons_append, List.cons.injEq] at heq
      exact absurd (heq.1 ▸ List.mem_cons_self _ _) h2
  | cons y ys ih =>
    intro l2 r1 r2 h1 h2 heq
    cases l2 with
    | nil =>
      simp only [List.nil_append, List.cons_append, List.cons.injEq] at heq
      exact absurd (heq.1 ▸ List.mem_cons_self _ _) h1
    | cons x xs =>
      simp only [List.cons_append, List.cons.injEq] at heq
      have hy : c ∉ ys := fun hm => h1 (List.mem_cons_of_mem _ hm)
      have hx : c ∉ xs := fun hm => h2 (List.mem_cons_of_mem _ hm)
      obtain ⟨e1, e2⟩ := ih xs r1 r2 hy hx heq.2
      exact ⟨by rw [heq.1, e1], e2⟩

theorem workloadKey_inj (ns1 n1 ns2 n2 : String)
    (h1 : '.' ∉ ns1.toList) (h2 : '.' ∉ ns2.toList)
    (heq : ns1 ++ "." ++ n1 = ns2 ++ "." ++ n2) : ns1 = ns2 ∧ n1 = n2 := by
  have hd := congrArg String.data heq
  simp only [String.data_append] at hd
  have hd2 : ns1.data ++ '.' :: n1.data = ns2.data ++ '.' :: n2.data := by
    simpa using hd
  obtain ⟨e1, e2⟩ := sep_append_inj '.' ns1.data ns2.data n1.data n2.data h1 h2 hd2
  exact ⟨String.ext e1, String.ext e2⟩

/-! ## Convert -/

/-- C1: for every pod, `Convert` returns a `WorkloadEndpointData` and a nil
error, and the labels of the result are the pod's labels (none for a nil map)
with `calico/k8s_ns` assigned the namespace: that key maps to the namespace
whatever it mapped to before, every other key maps to what it mapped to in the
pod's labels.  The pod `prod/web-1` labelled `app=web` gives key `prod.web-1`
and labels `app=web`, `calico/k8s_ns=prod`. -/
theorem Convert_labels_insert :
    (∀ (σ : Store) (a : Nat), ∃ d σ',
      Convert σ (Obj.podPtr (some a)) = (Outcome.ret (Obj.wepData d, none), σ') ∧
      σ'.labels d.Labels =
        GoMap.assign (σ.labels (σ.pods a).ObjectMeta.Labels) k8sNamespaceLabel
          (σ.pods a).Namespace ∧
      ∀ k : String, (σ'.labels d.Labels).lookup k =
        if k = k8sNamespaceLabel then some (σ.pods a).Namespace
        else (σ.labels (σ.pods a).ObjectMeta.Labels).lookup k) ∧
    (∃ σ', Convert exStore (Obj.podPtr (some 0)) =
        (Outcome.ret (Obj.wepData { Key := "prod.web-1", Labels := some 0 }, none), σ') ∧
      σ'.labels (some 0) = [("app", "web"), ("calico/k8s_ns", "prod")]) := by
  refine ⟨?_, ⟨_, rfl, by decide⟩⟩
  intro σ a
  cases h : (σ.pods a).ObjectMeta.Labels with
  | none =>
    refine ⟨_, _, Convert_pod_unlabelled σ a h, ?_, ?_⟩
    · simp [Store.labels, Store.mapAssign, Store.newMap]
    · intro k
      simp [Store.labels, Store.mapAssign, Store.newMap, GoMap.lookup_assign]
  | some r =>
    refine ⟨_, _, Convert_pod_labelled σ a r h, ?_, ?_⟩
    · simp [Store.labels, Store.mapAssign]
    · intro k
      simp [Store.labels, Store.mapAssign, GoMap.lookup_assign]

/-- C2: the key of the result of `Convert` is the namespace, a dot, and the
name of the pod; it stays the same when the pod's labels are replaced by any
other map value `L`. -/
theorem Convert_key (σ : Store) (a : Nat) (L : MapRef) :
    (∃ d σ', Convert σ (Obj.podPtr (some a)) = (Outcome.ret (Obj.wepData d, none), σ') ∧
      d.Key = (σ.pods a).Namespace ++ "." ++ (σ.pods a).Name) ∧
    (∃ d σ',
      Convert
        { σ with pods := fun b =>
            if b = a then { ObjectMeta := { (σ.pods a).ObjectMeta with Labels := L } }
            else σ.pods b }
        (Obj.podPtr (some a)) = (Outcome.ret (Obj.wepData d, none), σ') ∧
      d.Key = (σ.pods a).Namespace ++ "." ++ (σ.pods a).Name) := by
  refine ⟨Convert_pod_key σ a, ?_⟩
  obtain ⟨d, τ', h1, h2⟩ := Convert_pod_key
    { σ with pods := fun b =>
        if b = a then { ObjectMeta := { (σ.pods a).ObjectMeta with Labels := L } }
        else σ.pods b } a
  refine ⟨d, τ', h1, ?_⟩
  rw [h2]
  simp [Pod.Namespace, Pod.Name]

/-- C3: for a pod whose label map is nil, the labels of the result of
`Convert` are a non-nil map holding the single entry `calico/k8s_ns` to the
namespace: its length is 1 and every other key is absent. -/
theorem Convert_nil_labels (σ : Store) (a : Nat)
    (h : (σ.pods a).ObjectMeta.Labels = none) :
    ∃ d σ' r, Convert σ (Obj.podPtr (some a)) = (Outcome.ret (Obj.wepData d, none), σ') ∧
      d.Labels = some r ∧
      σ'.labels d.Labels = [(k8sNamespaceLabel, (σ.pods a).Namespace)] ∧
      GoMap.len (σ'.labels d.Labels) = 1 ∧
      ∀ k : String, (σ'.labels d.Labels).lookup k =
        if k = k8sNamespaceLabel then some (σ.pods a).Namespace else none := by
  refine ⟨_, _, σ.next, Convert_pod_unlabelled σ a h, rfl, ?_, ?_, ?_⟩
  · simp [Store.labels, Store.mapAssign, Store.newMap, GoMap.assign]
  · simp [Store.labels, Store.mapAssign, Store.newMap, GoMap.assign, GoMap.len]
  · intro k
    by_cases hk : k = k8sNamespaceLabel
    · simp [Store.labels, Store.mapAssign, Store.newMap, GoMap.assign, GoMap.lookup, hk]
    · simp [Store.labels, Store.mapAssign, Store.newMap, GoMap.assign, GoMap.lookup, hk,
        Ne.symm hk]

/-- Witness of C3 at the unlabelled pod `prod/web-1`. -/
theorem Convert_nil_labels_witness :
    (exStoreNil.pods 0).ObjectMeta.Labels = none ∧
    ∃ d σ' r, Convert exStoreNil (Obj.podPtr (some 0)) =
        (Outcome.ret (Obj.wepData d, none), σ') ∧
      d.Labels = some r ∧
      σ'.labels d.Labels = [(k8sNamespaceLabel, (exStoreNil.pods 0).Namespace)] ∧
      GoMap.len (σ'.labels d.Labels) = 1 ∧
      ∀ k : String, (σ'.labels d.Labels).lookup k =
        if k = k8sNamespaceLabel then some (exStoreNil.pods 0).Namespace else none :=
  ⟨rfl, Convert_nil_labels exStoreNil 0 rfl⟩

/-- C4, as stated, fails: after `Convert` of the pod `prod/web-1` labelled
`app=web`, the pod's own label map is no longer what it was, it has gained
`calico/k8s_ns=prod`; and a pod labelled `calico/k8s_ns=dev` finds that entry
overwritten with `prod`. -/
theorem Convert_mutates_input :
    (Convert exStore (Obj.podPtr (some 0))).2.labels (exStore.pods 0).ObjectMeta.Labels ≠
      exStore.labels (exStore.pods 0).ObjectMeta.Labels ∧
    (exStore.labels (exStore.pods 0).ObjectMeta.Labels).lookup k8sNamespaceLabel = none ∧
    ((Convert exStore (Obj.podPtr (some 0))).2.labels
      (exStore.pods 0).ObjectMeta.Labels).lookup k8sNamespaceLabel = some "prod" ∧
    (exStoreMarked.labels (exStoreMarked.pods 0).ObjectMeta.Labels).lookup k8sNamespaceLabel =
      some "dev" ∧
    ((Convert exStoreMarked (Obj.podPtr (some 0))).2.labels
      (exStoreMarked.pods 0).ObjectMeta.Labels).lookup k8sNamespaceLabel = some "prod" := by
  refine ⟨by decide, by decide, by decide, by decide, by decide⟩

/-- C4, amended: `Convert` of a pod with a non-nil label map leaves every pod
object as it was (namespace, name and label reference), returns that same map
reference as the labels of the result, and changes the store in one place
only: in the pod's label map `calico/k8s_ns` now maps to the namespace, every
other key of that map and every other map being as before. -/
theorem Convert_input_frame (σ : Store) (a r : Nat)
    (h : (σ.pods a).ObjectMeta.Labels = some r) :
    ∃ d σ', Convert σ (Obj.podPtr (some a)) = (Outcome.ret (Obj.wepData d, none), σ') ∧
      σ'.pods = σ.pods ∧
      d.Labels = (σ.pods a).ObjectMeta.Labels ∧
      σ'.labels (σ'.pods a).ObjectMeta.Labels =
        GoMap.assign (σ.labels (σ.pods a).ObjectMeta.Labels) k8sNamespaceLabel
          (σ.pods a).Namespace ∧
      (∀ k : String, (σ'.labels (σ'.pods a).ObjectMeta.Labels).lookup k =
        if k = k8sNamespaceLabel then some (σ.pods a).Namespace
        else (σ.labels (σ.pods a).ObjectMeta.Labels).lookup k) ∧
      (∀ b : Nat, σ'.maps b = if b = r then σ'.maps r else σ.maps b) ∧
      σ'.next = σ.next := by
  refine ⟨_, _, Convert_pod_labelled σ a r h, rfl, h.symm, ?_, ?_, ?_, rfl⟩
  · simp [Store.labels, Store.mapAssign, h]
  · intro k
    simp [Store.labels, Store.mapAssign, h, GoMap.lookup_assign]
  · intro b
    by_cases hb : b = r
    · simp [hb]
    · simp [Store.mapAssign, hb]

/-- Witness of amended C4 at the pod `prod/web-1` labelled `app=web`. -/
theorem Convert_input_frame_witness :
    (exStore.pods 0).ObjectMeta.Labels = some 0 ∧
    ∃ d σ', Convert exStore (Obj.podPtr (some 0)) =
        (Outcome.ret (Obj.wepData d, none), σ') ∧
      σ'.pods = exStore.pods ∧
      d.Labels = (exStore.pods 0).ObjectMeta.Labels ∧
      σ'.labels (σ'.pods 0).ObjectMeta.Labels =
        GoMap.assign (exStore.labels (exStore.pods 0).ObjectMeta.Labels) k8sNamespaceLabel
          (exStore.pods 0).Namespace ∧
      (∀ k : String, (σ'.labels (σ'.pods 0).ObjectMeta.Labels).lookup k =
        if k = k8sNamespaceLabel then some (exStore.pods 0).Namespace
        else (exStore.labels (exStore.pods 0).ObjectMeta.Labels).lookup k) ∧
      (∀ b : Nat, σ'.maps b = if b = 0 then σ'.maps 0 else exStore.maps b) ∧
      σ'.next = exStore.next :=
  ⟨rfl, Convert_input_frame exStore 0 0 rfl⟩

/-! ## MergeWorkloadEndpointData -/

/-- C5: when the endpoint's workload differs from the key of the update,
`MergeWorkloadEndpointData` ends in the fatal `KeyMismatch` and the endpoint is
what it was before the call: same labels, same workload, same other fields. -/
theorem Merge_key_mismatch {ρ : Type} (wep : WorkloadEndpoint ρ) (upd : WorkloadEndpointData)
    (h : wep.Metadata.Workload ≠ upd.Key) :
    (MergeWorkloadEndpointData wep upd).1 =
      Outcome.fatal (Failure.KeyMismatch upd.Key wep.Metadata.Workload) ∧
    (MergeWorkloadEndpointData wep upd).2 = wep ∧
    (MergeWorkloadEndpointData wep upd).2.Metadata.Labels = wep.Metadata.Labels ∧
    (MergeWorkloadEndpointData wep upd).2.Metadata.Workload = wep.Metadata.Workload ∧
    ∀ σ : Store, σ.labels (MergeWorkloadEndpointData wep upd).2.Metadata.Labels =
      σ.labels wep.Metadata.Labels := by
  simp [MergeWorkloadEndpointData, h]

/-- Witness of C5: merging the update for `prod.web-2` into the endpoint of
`prod.web-1`. -/
theorem Merge_key_mismatch_witness :
    exEndpoint.Metadata.Workload ≠ exUpdateOther.Key ∧
    (MergeWorkloadEndpointData exEndpoint exUpdateOther).1 =
      Outcome.fatal (Failure.KeyMismatch "prod.web-2" "prod.web-1") ∧
    (MergeWorkloadEndpointData exEndpoint exUpdateOther).2.Metadata.Labels = some 1 :=
  ⟨by decide,
    (Merge_key_mismatch exEndpoint exUpdateOther (by decide)).1,
    (Merge_key_mismatch exEndpoint exUpdateOther (by decide)).2.2.1⟩

/-- C6: when the endpoint's workload equals the key of the update,
`MergeWorkloadEndpointData` returns and the endpoint's labels are the labels of
the update: the same map, so every key maps to what it maps to in the update,
and a key absent from the update is absent from the endpoint whatever the
endpoint's old labels held. -/
theorem Merge_replaces_labels {ρ : Type} (wep : WorkloadEndpoint ρ)
    (upd : WorkloadEndpointData) (h : wep.Metadata.Workload = upd.Key) :
    (MergeWorkloadEndpointData wep upd).1 = Outcome.ret () ∧
    (MergeWorkloadEndpointData wep upd).2.Metadata.Labels = upd.Labels ∧
    (∀ σ : Store, σ.labels (MergeWorkloadEndpointData wep upd).2.Metadata.Labels =
      σ.labels upd.Labels) ∧
    (∀ (σ : Store) (k : String),
      (σ.labels (MergeWorkloadEndpointData wep upd).2.Metadata.Labels).lookup k =
        (σ.labels upd.Labels).lookup k) := by
  simp [MergeWorkloadEndpointData, h]

/-- Witness of C6: the endpoint held `old=x`, the update holds `app=web`;
after the merge `old` is absent from the endpoint's labels. -/
theorem Merge_replaces_labels_witness :
    exEndpoint.Metadata.Workload = exUpdate.Key ∧
    (exStoreTwo.labels exEndpoint.Metadata.Labels).lookup "old" = some "x" ∧
    (exStoreTwo.labels exUpdate.Labels).lookup "old" = none ∧
    (exStoreTwo.labels (MergeWorkloadEndpointData exEndpoint exUpdate).2.Metadata.Labels).lookup
      "old" = none ∧
    (MergeWorkloadEndpointData exEndpoint exUpdate).1 = Outcome.ret () :=
  ⟨by decide, by decide, by decide,
    ((Merge_replaces_labels exEndpoint exUpdate (by decide)).2.2.2 exStoreTwo "old").trans
      (by decide),
    (Merge_replaces_labels exEndpoint exUpdate (by decide)).1⟩

/-- C7: when the endpoint's workload equals the key of the update, merging the
update a second time returns again and leaves the endpoint as the first merge
left it. -/
theorem Merge_idempotent {ρ : Type} (wep : WorkloadEndpoint ρ) (upd : WorkloadEndpointData)
    (h : wep.Metadata.Workload = upd.Key) :
    (MergeWorkloadEndpointData wep upd).1 = Outcome.ret () ∧
    (MergeWorkloadEndpointData (MergeWorkloadEndpointData wep upd).2 upd).1 = Outcome.ret () ∧
    (MergeWorkloadEndpointData (MergeWorkloadEndpointData wep upd).2 upd).2 =
      (MergeWorkloadEndpointData wep upd).2 := by
  simp [MergeWorkloadEndpointData, h]

/-- Witness of C7 at the endpoint and the update of `prod.web-1`. -/
theorem Merge_idempotent_witness :
    exEndpoint.Metadata.Workload = exUpdate.Key ∧
    (MergeWorkloadEndpointData exEndpoint exUpdate).1 = Outcome.ret () ∧
    (MergeWorkloadEndpointData (MergeWorkloadEndpointData exEndpoint exUpdate).2 exUpdate).1 =
      Outcome.ret () ∧
    (MergeWorkloadEndpointData (MergeWorkloadEndpointData exEndpoint exUpdate).2 exUpdate).2 =
      (MergeWorkloadEndpointData exEndpoint exUpdate).2 :=
  ⟨by decide, Merge_idempotent exEndpoint exUpdate (by decide)⟩

/-! ## GetKey and BuildWorkloadEndpointData -/

/-- C8: for every pod, `GetKey` of the value returned by `Convert` returns the
`Key` field of that value, which is the namespace, a dot, and the name. -/
theorem GetKey_Convert (σ : Store) (a : Nat) :
    ∃ v d σ', Convert σ (Obj.podPtr (some a)) = (Outcome.ret (v, none), σ') ∧
      v = Obj.wepData d ∧
      GetKey v = Outcome.ret d.Key ∧
      GetKey v = Outcome.ret ((σ.pods a).Namespace ++ "." ++ (σ.pods a).Name) := by
  cases h : (σ.pods a).ObjectMeta.Labels with
  | none => exact ⟨_, _, _, Convert_pod_unlabelled σ a h, rfl, rfl, rfl⟩
  | some r => exact ⟨_, _, _, Convert_pod_labelled σ a r h, rfl, rfl, rfl⟩

/-- C9, as stated, fails: the labels of `BuildWorkloadEndpointData exEndpoint`
are the map at address 1, the very map of the endpoint; assigning `x=y` in it
changes the endpoint's labels, which did not hold `x` before. -/
theorem Build_shares_storage :
    (BuildWorkloadEndpointData exEndpoint).Labels = some 1 ∧
    (exStoreTwo.labels exEndpoint.Metadata.Labels).lookup "x" = none ∧
    ((exStoreTwo.mapAssign 1 "x" "y").labels exEndpoint.Metadata.Labels).lookup "x" =
      some "y" ∧
    (exStoreTwo.mapAssign 1 "x" "y").labels exEndpoint.Metadata.Labels ≠
      exStoreTwo.labels exEndpoint.Metadata.Labels := by
  refine ⟨rfl, by decide, by decide, by decide⟩

/-- C9, amended: `BuildWorkloadEndpointData` is a projection, its key is the
endpoint's workload and its labels are the endpoint's map reference itself, so
both show the same entries in every store, and an assignment made through the
labels of the result is an assignment to the endpoint's labels. -/
theorem Build_projection {ρ : Type} (wep : WorkloadEndpoint ρ) :
    (BuildWorkloadEndpointData wep).Key = wep.Metadata.Workload ∧
    (BuildWorkloadEndpointData wep).Labels = wep.Metadata.Labels ∧
    (∀ σ : Store, σ.labels (BuildWorkloadEndpointData wep).Labels =
      σ.labels wep.Metadata.Labels) ∧
    (∀ (σ : Store) (r : Nat) (k v : String), (BuildWorkloadEndpointData wep).Labels = some r →
      (σ.mapAssign r k v).labels wep.Metadata.Labels =
        GoMap.assign (σ.labels wep.Metadata.Labels) k v) := by
  refine ⟨rfl, rfl, fun _ => rfl, ?_⟩
  intro σ r k v hr
  have hr2 : wep.Metadata.Labels = some r := hr
  simp [hr2, Store.labels, Store.mapAssign]

/-- Witness of amended C9 at the endpoint of `prod.web-1`. -/
theorem Build_projection_witness :
    (BuildWorkloadEndpointData exEndpoint).Labels = some 1 ∧
    (exStoreTwo.mapAssign 1 "x" "y").labels exEndpoint.Metadata.Labels =
      GoMap.assign (exStoreTwo.labels exEndpoint.Metadata.Labels) "x" "y" :=
  ⟨rfl, (Build_projection exEndpoint).2.2.2 exStoreTwo 1 "x" "y" rfl⟩

/-! ## Uniqueness of the key -/

/-- C10, as stated, fails: the pods `a.b/c` and `a/b.c` convert to the same
key `a.b.c` although their namespaces and names differ. -/
theorem Convert_key_collision :
    ∃ d e σ' τ',
      Convert exStoreDots (Obj.podPtr (some 0)) = (Outcome.ret (Obj.wepData d, none), σ') ∧
      Convert exStoreDots (Obj.podPtr (some 1)) = (Outcome.ret (Obj.wepData e, none), τ') ∧
      d.Key = e.Key ∧
      (exStoreDots.pods 0).Namespace ≠ (exStoreDots.pods 1).Namespace ∧
      (exStoreDots.pods 0).Name ≠ (exStoreDots.pods 1).Name :=
  ⟨_, _, _, _, rfl, rfl, by decide, by decide, by decide⟩

/-- C10, amended: for two pods whose namespaces hold no dot, equal keys of
their conversions force equal namespaces and equal names. -/
theorem Convert_key_unique_of_no_dot (σ τ : Store) (a b : Nat)
    (d e : WorkloadEndpointData) (σ' τ' : Store)
    (hP : '.' ∉ (σ.pods a).Namespace.toList) (hQ : '.' ∉ (τ.pods b).Namespace.toList)
    (hd : Convert σ (Obj.podPtr (some a)) = (Outcome.ret (Obj.wepData d, none), σ'))
    (he : Convert τ (Obj.podPtr (some b)) = (Outcome.ret (Obj.wepData e, none), τ'))
    (hk : d.Key = e.Key) :
    (σ.pods a).Namespace = (τ.pods b).Namespace ∧ (σ.pods a).Name = (τ.pods b).Name := by
  obtain ⟨d0, σ0, h1, h2⟩ := Convert_pod_key σ a
  obtain ⟨e0, τ0, h3, h4⟩ := Convert_pod_key τ b
  rw [hd] at h1
  rw [he] at h3
  have hd0 : d = d0 := by
    simpa using congrArg Prod.fst h1
  have he0 : e = e0 := by
    simpa using congrArg Prod.fst h3
  subst hd0
  subst he0
  rw [h2, h4] at hk
  exact workloadKey_inj _ _ _ _ hP hQ hk

/-- Witness of amended C10: the pod at address 0 of `exStore` and the pod at
address 5 of `exStoreMarked` are both `prod/web-1` and convert to the same
key. -/
theorem Convert_key_unique_of_no_dot_witness :
    '.' ∉ (exStore.pods 0).Namespace.toList ∧ '.' ∉ (exStoreMarked.pods 5).Namespace.toList ∧
    Convert exStore (Obj.podPtr (some 0)) =
      (Outcome.ret (Obj.wepData { Key := "prod.web-1", Labels := some 0 }, none),
        exStore.mapAssign 0 k8sNamespaceLabel "prod") ∧
    Convert exStoreMarked (Obj.podPtr (some 5)) =
      (Outcome.ret (Obj.wepData { Key := "prod.web-1", Labels := some 0 }, none),
        exStoreMarked.mapAssign 0 k8sNamespaceLabel "prod") ∧
    (exStore.pods 0).Namespace = (exStoreMarked.pods 5).Namespace ∧
    (exStore.pods 0).Name = (exStoreMarked.pods 5).Name :=
  ⟨by decide, by decide, rfl, rfl,
    Convert_key_unique_of_no_dot exStore exStoreMarked 0 5
      { Key := "prod.web-1", Labels := some 0 } { Key := "prod.web-1", Labels := some 0 }
      (exStore.mapAssign 0 k8sNamespaceLabel "prod")
      (exStoreMarked.mapAssign 0 k8sNamespaceLabel "prod")
      (by decide) (by decide) rfl rfl rfl⟩

/-! ## Wrong dynamic types -/

/-- C11, as stated, fails: `Convert` of a value that is not a `*v1.Pod` (here
a string, and a `WorkloadEndpointData`) ends in the fatal log and process exit,
it returns nothing to the caller, in particular no error value. -/
theorem Convert_wrong_type_exits :
    Convert exStore (Obj.other "string") = (Outcome.fatal Failure.TypeMismatch, exStore) ∧
    (¬ ∃ (v : Obj) (err : String) (τ : Store),
      Convert exStore (Obj.other "string") = (Outcome.ret (v, some err), τ)) ∧
    (¬ ∃ (v : Obj) (err : String) (τ : Store),
      Convert exStore (Obj.wepData exUpdate) = (Outcome.ret (v, some err), τ)) := by
  refine ⟨rfl, ?_, ?_⟩
  · rintro ⟨v, err, τ, h⟩
    have h1 := congrArg Prod.fst h
    simp [Convert] at h1
  · rintro ⟨v, err, τ, h⟩
    have h1 := congrArg Prod.fst h
    simp [Convert] at h1

/-- C11, amended: for every input whose dynamic type is not `*v1.Pod`,
`Convert` logs the fatal `TypeMismatch` and exits the process with the store
untouched, returning neither a value nor an error; for every input that is a
non-nil pod it returns a `WorkloadEndpointData` together with a nil error. -/
theorem Convert_type_check :
    (∀ (σ : Store) (t : String),
      Convert σ (Obj.other t) = (Outcome.fatal Failure.TypeMismatch, σ)) ∧
    (∀ (σ : Store) (d : WorkloadEndpointData),
      Convert σ (Obj.wepData d) = (Outcome.fatal Failure.TypeMismatch, σ)) ∧
    (∀ (σ : Store) (a : Nat), ∃ d σ',
      Convert σ (Obj.podPtr (some a)) = (Outcome.ret (Obj.wepData d, none), σ')) := by
  refine ⟨fun _ _ => rfl, fun _ _ => rfl, ?_⟩
  intro σ a
  obtain ⟨d, σ', h, _⟩ := Convert_pod_key σ a
  exact ⟨d, σ', h⟩

/-- C12: `GetKey` returns the `Key` field of every `WorkloadEndpointData`, an
empty key and nil labels included; on a value of any other dynamic type the
type assertion fails and `GetKey` panics instead of returning a string. -/
theorem GetKey_type_check :
    (∀ d : WorkloadEndpointData, GetKey (Obj.wepData d) = Outcome.ret d.Key) ∧
    GetKey (Obj.wepData { Key := "", Labels := none }) = Outcome.ret "" ∧
    (∀ p : Option Nat, GetKey (Obj.podPtr p) = Outcome.panic) ∧
    (∀ t : String, GetKey (Obj.other t) = Outcome.panic) ∧
    (∀ obj : Obj,
      (∃ d, obj = Obj.wepData d ∧ GetKey obj = Outcome.ret d.Key) ∨
      ((∀ d, obj ≠ Obj.wepData d) ∧ GetKey obj = Outcome.panic ∧
        ∀ s : String, GetKey obj ≠ Outcome.ret s)) := by
  refine ⟨fun _ => rfl, rfl, fun _ => rfl, fun _ => rfl, ?_⟩
  intro obj
  cases obj with
  | podPtr p => exact Or.inr ⟨fun d h => (by cases h), rfl, fun s h => (by cases h)⟩
  | wepData d => exact Or.inl ⟨d, rfl, rfl⟩
  | other t => exact Or.inr ⟨fun d h => (by cases h), rfl, fun s h => (by cases h)⟩

/-! ## Postconditions of Convert -/

/-- C13: for every pod, the key of the result of `Convert` is not the empty
string and the labels of the result are a non-nil map in which
`calico/k8s_ns` maps to the pod's namespace; the pod with empty namespace,
empty name and nil labels converts to the key `.`. -/
theorem Convert_postconditions :
    (∀ (σ : Store) (a : Nat), ∃ d σ' r,
      Convert σ (Obj.podPtr (some a)) = (Outcome.ret (Obj.wepData d, none), σ') ∧
      d.Key ≠ "" ∧ 0 < d.Key.length ∧
      d.Labels = some r ∧
      (σ'.labels d.Labels).lookup k8sNamespaceLabel = some (σ.pods a).Namespace) ∧
    (∃ σ', Convert exStoreEmpty (Obj.podPtr (some 0)) =
        (Outcome.ret (Obj.wepData { Key := ".", Labels := some 0 }, none), σ') ∧
      σ'.labels (some 0) = [(k8sNamespaceLabel, "")]) := by
  refine ⟨?_, ⟨_, rfl, by decide⟩⟩
  intro σ a
  have hlen : 0 < ((σ.pods a).Namespace ++ "." ++ (σ.pods a).Name).length := by
    have h1 : ".".length = 1 := rfl
    simp only [String.length_append, h1]
    omega
  have hne : (σ.pods a).Namespace ++ "." ++ (σ.pods a).Name ≠ "" := by
    intro h
    rw [h] at hlen
    exact absurd hlen (by decide)
  cases h : (σ.pods a).ObjectMeta.Labels with
  | none =>
    refine ⟨_, _, σ.next, Convert_pod_unlabelled σ a h, hne, hlen, rfl, ?_⟩
    simp [Store.labels, Store.mapAssign, Store.newMap, GoMap.lookup_assign_self]
  | some r =>
    refine ⟨_, _, r, Convert_pod_labelled σ a r h, hne, hlen, rfl, ?_⟩
    simp [Store.labels, Store.mapAssign, GoMap.lookup_assign_self]

/-! ## Build and Merge together -/

/-- C14: when the endpoint's workload equals the key of the update,
`BuildWorkloadEndpointData` of the merged endpoint is the update, key and
labels; and merging `BuildWorkloadEndpointData wep` into `wep` returns and
leaves `wep` as it was. -/
theorem Build_Merge_inverse {ρ : Type} (wep : WorkloadEndpoint ρ) (upd : WorkloadEndpointData)
    (h : wep.Metadata.Workload = upd.Key) :
    (MergeWorkloadEndpointData wep upd).1 = Outcome.ret () ∧
    BuildWorkloadEndpointData (MergeWorkloadEndpointData wep upd).2 = upd ∧
    (BuildWorkloadEndpointData (MergeWorkloadEndpointData wep upd).2).Key = upd.Key ∧
    (BuildWorkloadEndpointData (MergeWorkloadEndpointData wep upd).2).Labels = upd.Labels ∧
    (∀ σ : Store,
      σ.labels (BuildWorkloadEndpointData (MergeWorkloadEndpointData wep upd).2).Labels =
        σ.labels upd.Labels) ∧
    MergeWorkloadEndpointData wep (BuildWorkloadEndpointData wep) = (Outcome.ret (), wep) := by
  have h1 : (MergeWorkloadEndpointData wep upd) =
      (Outcome.ret (), { wep with Metadata := { wep.Metadata with Labels := upd.Labels } }) := by
    simp [MergeWorkloadEndpointData, h]
  have h2 : BuildWorkloadEndpointData (MergeWorkloadEndpointData wep upd).2 = upd := by
    rw [h1]
    simp [BuildWorkloadEndpointData, h]
  refine ⟨by rw [h1], h2, by rw [h2], by rw [h2], fun σ => by rw [h2], ?_⟩
  simp [MergeWorkloadEndpointData, BuildWorkloadEndpointData]

/-- Witness of C14 at the endpoint and the update of `prod.web-1`. -/
theorem Build_Merge_inverse_witness :
    exEndpoint.Metadata.Workload = exUpdate.Key ∧
    BuildWorkloadEndpointData (MergeWorkloadEndpointData exEndpoint exUpdate).2 = exUpdate ∧
    MergeWorkloadEndpointData exEndpoint (BuildWorkloadEndpointData exEndpoint) =
      (Outcome.ret (), exEndpoint) :=
  ⟨by decide,
    (Build_Merge_inverse exEndpoint exUpdate (by decide)).2.1,
    (Build_Merge_inverse exEndpoint exUpdate (by decide)).2.2.2.2.2⟩

/-- C16: when the endpoint's workload equals the key of the update,
`MergeWorkloadEndpointData` returns and the endpoint afterwards has the
workload and the other fields it had before, only its labels being those of
the update; the update is an argument passed by value that the function only
reads, and no map is written, the entries behind its labels being read as they
are in any store. -/
theorem Merge_frame {ρ : Type} (wep : WorkloadEndpoint ρ) (upd : WorkloadEndpointData)
    (h : wep.Metadata.Workload = upd.Key) :
    (MergeWorkloadEndpointData wep upd).1 = Outcome.ret () ∧
    (MergeWorkloadEndpointData wep upd).2.Metadata.Workload = wep.Metadata.Workload ∧
    (MergeWorkloadEndpointData wep upd).2.rest = wep.rest ∧
    (MergeWorkloadEndpointData wep upd).2 =
      { Metadata := { Workload := wep.Metadata.Workload, Labels := upd.Labels },
        rest := wep.rest } ∧
    (∀ σ : Store, σ.labels (MergeWorkloadEndpointData wep upd).2.Metadata.Labels =
      σ.labels upd.Labels) := by
  simp [MergeWorkloadEndpointData, h]

/-- Witness of C16: an endpoint whose other fields are the number 7 keeps
them, and its workload, through the merge. -/
theorem Merge_frame_witness :
    exEndpointRest.Metadata.Workload = exUpdate.Key ∧
    (MergeWorkloadEndpointData exEndpointRest exUpdate).1 = Outcome.ret () ∧
    (MergeWorkloadEndpointData exEndpointRest exUpdate).2.Metadata.Workload = "prod.web-1" ∧
    (MergeWorkloadEndpointData exEndpointRest exUpdate).2.rest = 7 :=
  ⟨by decide,
    (Merge_frame exEndpointRest exUpdate (by decide)).1,
    (Merge_frame exEndpointRest exUpdate (by decide)).2.1,
    (Merge_frame exEndpointRest exUpdate (by decide)).2.2.1⟩

/-! ## The key and the dot -/

/-- C15: for two pods whose namespaces hold no dot, equal keys of their
conversions force equal namespaces and equal names; without the restriction
the pods `a.b/c` and `a/b.c`, different in namespace and in name, both convert
to the key `a.b.c`. -/
theorem Convert_key_injective_iff_no_dot :
    (∀ (σ τ : Store) (a b : Nat) (d e : WorkloadEndpointData) (σ' τ' : Store),
      '.' ∉ (σ.pods a).Namespace.toList → '.' ∉ (τ.pods b).Namespace.toList →
      Convert σ (Obj.podPtr (some a)) = (Outcome.ret (Obj.wepData d, none), σ') →
      Convert τ (Obj.podPtr (some b)) = (Outcome.ret (Obj.wepData e, none), τ') →
      d.Key = e.Key →
      (σ.pods a).Namespace = (τ.pods b).Namespace ∧ (σ.pods a).Name = (τ.pods b).Name) ∧
    (∃ (σ : Store) (a b : Nat) (d e : WorkloadEndpointData) (σ' τ' : Store),
      Convert σ (Obj.podPtr (some a)) = (Outcome.ret (Obj.wepData d, none), σ') ∧
      Convert σ (Obj.podPtr (some b)) = (Outcome.ret (Obj.wepData e, none), τ') ∧
      d.Key = "a.b.c" ∧ e.Key = "a.b.c" ∧
      (σ.pods a).Namespace = "a.b" ∧ (σ.pods a).Name = "c" ∧
      (σ.pods b).Namespace = "a" ∧ (σ.pods b).Name = "b.c") := by
  constructor
  · intro σ τ a b d e σ' τ' hP hQ hd he hk
    obtain ⟨d0, σ0, h1, h2⟩ := Convert_pod_key σ a
    obtain ⟨e0, τ0, h3, h4⟩ := Convert_pod_key τ b
    rw [hd] at h1
    rw [he] at h3
    have hd0 : d = d0 := by
      simpa using congrArg Prod.fst h1
    have he0 : e = e0 := by
      simpa using congrArg Prod.fst h3
    subst hd0
    subst he0
    rw [h2, h4] at hk
    exact workloadKey_inj _ _ _ _ hP hQ hk
  · exact ⟨exStoreDots, 0, 1, _, _, _, _, rfl, rfl, by decide, by decide, by decide,
      by decide, by decide, by decide⟩

/-- Witness of C15: the unlabelled pod `prod/web-1` of `exStoreNil` and the
labelled pod `prod/web-1` of `exStore` convert to the same key. -/
theorem Convert_key_injective_iff_no_dot_witness :
    '.' ∉ (exStoreNil.pods 0).Namespace.toList ∧ '.' ∉ (exStore.pods 0).Namespace.toList ∧
    Convert exStoreNil (Obj.podPtr (some 0)) =
      (Outcome.ret (Obj.wepData { Key := "prod.web-1", Labels := some 0 }, none),
        exStoreNil.newMap.2.mapAssign 0 k8sNamespaceLabel "prod") ∧
    Convert exStore (Obj.podPtr (some 0)) =
      (Outcome.ret (Obj.wepData { Key := "prod.web-1", Labels := some 0 }, none),
        exStore.mapAssign 0 k8sNamespaceLabel "prod") ∧
    (exStoreNil.pods 0).Namespace = (exStore.pods 0).Namespace ∧
    (exStoreNil.pods 0).Name = (exStore.pods 0).Name :=
  ⟨by decide, by decide, rfl, rfl,
    Convert_key_injective_iff_no_dot.1 exStoreNil exStore 0 0
      { Key := "prod.web-1", Labels := some 0 } { Key := "prod.web-1", Labels := some 0 }
      (exStoreNil.newMap.2.mapAssign 0 k8sNamespaceLabel "prod")
      (exStore.mapAssign 0 k8sNamespaceLabel "prod")
      (by decide) (by decide) rfl rfl rfl⟩

/-! ## Converting again -/

theorem GoMap.assign_assign (m : GoMap) (k v : String) :
    GoMap.assign (GoMap.assign m k v) k v = GoMap.assign m k v := by
  induction m with
  | nil => simp [GoMap.assign]
  | cons e rest ih =>
    obtain ⟨k', v'⟩ := e
    by_cases hk : k' = k
    · simp [GoMap.assign, hk]
    · simp [GoMap.assign, hk, ih]

theorem Convert_marked (σ : Store) (b r : Nat) (m : GoMap)
    (hl : (σ.pods b).ObjectMeta.Labels = some r)
    (hm : σ.maps r = GoMap.assign m k8sNamespaceLabel (σ.pods b).Namespace) :
    ∃ τ, Convert σ (Obj.podPtr (some b)) =
        (Outcome.ret (Obj.wepData
          { Key := (σ.pods b).Namespace ++ "." ++ (σ.pods b).Name, Labels := some r }, none), τ) ∧
      τ.pods = σ.pods ∧ τ.next = σ.next ∧ ∀ c : Nat, τ.maps c = σ.maps c := by
  refine ⟨_, Convert_pod_labelled σ b r hl, rfl, rfl, ?_⟩
  intro c
  by_cases hc : c = r
  · subst hc
    simp [Store.mapAssign, hm, GoMap.assign_assign]
  · simp [Store.mapAssign, hc]

/-- C17: for every pod, a pod with the same namespace and name whose labels
are the labels of the first conversion converts to the same result, same key
and same labels, and this second conversion leaves every map as the first one
left it; the same holds when the second pod's labels are another map with the
entries of the first result's labels. -/
theorem Convert_reconvert (σ : Store) (a b : Nat) :
    ∃ d σ', Convert σ (Obj.podPtr (some a)) = (Outcome.ret (Obj.wepData d, none), σ') ∧
      (∃ τ',
        Convert
          { σ' with pods := fun c =>
              if c = b then
                { ObjectMeta :=
                    { Name := (σ.pods a).Name, Namespace := (σ.pods a).Namespace,
                      Labels := d.Labels } }
              else σ'.pods c }
          (Obj.podPtr (some b)) = (Outcome.ret (Obj.wepData d, none), τ') ∧
        τ'.labels d.Labels = σ'.labels d.Labels ∧
        (∀ c : Nat, τ'.maps c = σ'.maps c) ∧
        τ'.next = σ'.next) ∧
      (∀ (τ : Store) (r : Nat),
        (τ.pods b).Namespace = (σ.pods a).Namespace →
        (τ.pods b).Name = (σ.pods a).Name →
        (τ.pods b).ObjectMeta.Labels = some r →
        τ.maps r = σ'.labels d.Labels →
        ∃ e τ', Convert τ (Obj.podPtr (some b)) = (Outcome.ret (Obj.wepData e, none), τ') ∧
          e.Key = d.Key ∧
          τ'.labels e.Labels = σ'.labels d.Labels ∧
          ∀ c : Nat, τ'.maps c = τ.maps c) := by
  cases h : (σ.pods a).ObjectMeta.Labels with
  | none =>
    refine ⟨_, _, Convert_pod_unlabelled σ a h, ?_, ?_⟩
    · obtain ⟨τ, h1, _, h3, h4⟩ := Convert_marked
        { (σ.newMap.2.mapAssign σ.next k8sNamespaceLabel (σ.pods a).Namespace) with
          pods := fun c =>
            if c = b then
              { ObjectMeta :=
                  { Name := (σ.pods a).Name, Namespace := (σ.pods a).Namespace,
                    Labels := some σ.next } }
            else (σ.newMap.2.mapAssign σ.next k8sNamespaceLabel (σ.pods a).Namespace).pods c }
        b σ.next [] (by simp) (by simp [Store.mapAssign, Store.newMap, Pod.Namespace])
      refine ⟨τ, ?_, ?_, h4, h3⟩
      · rw [h1]
        simp [Pod.Namespace, Pod.Name]
      · simpa [Store.labels] using h4 σ.next
    · intro τ r hns hn hl hm
      obtain ⟨τ', h1, _, _, h4⟩ := Convert_marked τ b r [] hl
        (by rw [hm, hns]; simp [Store.labels, Store.mapAssign, Store.newMap])
      refine ⟨_, τ', h1, by simp [hns, hn], ?_, h4⟩
      simp only [Store.labels]
      rw [h4 r, hm]
      simp [Store.labels]
  | some r0 =>
    refine ⟨_, _, Convert_pod_labelled σ a r0 h, ?_, ?_⟩
    · obtain ⟨τ, h1, _, h3, h4⟩ := Convert_marked
        { (σ.mapAssign r0 k8sNamespaceLabel (σ.pods a).Namespace) with
          pods := fun c =>
            if c = b then
              { ObjectMeta :=
                  { Name := (σ.pods a).Name, Namespace := (σ.pods a).Namespace,
                    Labels := some r0 } }
            else (σ.mapAssign r0 k8sNamespaceLabel (σ.pods a).Namespace).pods c }
        b r0 (σ.maps r0) (by simp) (by simp [Store.mapAssign, Pod.Namespace])
      refine ⟨τ, ?_, ?_, h4, h3⟩
      · rw [h1]
        simp [Pod.Namespace, Pod.Name]
      · simpa [Store.labels] using h4 r0
    · intro τ r hns hn hl hm
      obtain ⟨τ', h1, _, _, h4⟩ := Convert_marked τ b r (σ.maps r0) hl
        (by rw [hm, hns]; simp [Store.labels, Store.mapAssign])
      refine ⟨_, τ', h1, by simp [hns, hn], ?_, h4⟩
      simp only [Store.labels]
      rw [h4 r, hm]
      simp [Store.labels]

/-- Witness of C17: the pod `prod/web-1` labelled `app=web` is converted, then
a pod `prod/web-1` whose labels are a separate map with the entries of that
result is converted: same key, same entries. -/
theorem Convert_reconvert_witness :
    ∃ d σ', Convert exStore (Obj.podPtr (some 0)) = (Outcome.ret (Obj.wepData d, none), σ') ∧
      (exStoreCopy.pods 0).Namespace = (exStore.pods 0).Namespace ∧
      (exStoreCopy.pods 0).Name = (exStore.pods 0).Name ∧
      (exStoreCopy.pods 0).ObjectMeta.Labels = some 3 ∧
      exStoreCopy.maps 3 = σ'.labels d.Labels ∧
      ∃ e τ', Convert exStoreCopy (Obj.podPtr (some 0)) =
          (Outcome.ret (Obj.wepData e, none), τ') ∧
        e.Key = d.Key ∧
        τ'.labels e.Labels = σ'.labels d.Labels ∧
        ∀ c : Nat, τ'.maps c = exStoreCopy.maps c := by
  obtain ⟨d, σ', h1, _, h3⟩ := Convert_reconvert exStore 0 0
  have hc : Convert exStore (Obj.podPtr (some 0)) =
      (Outcome.ret (Obj.wepData { Key := "prod.web-1", Labels := some 0 }, none),
        exStore.mapAssign 0 k8sNamespaceLabel "prod") := rfl
  have hm : exStoreCopy.maps 3 = σ'.labels d.Labels := by
    rw [hc] at h1
    simp only [Prod.mk.injEq, Outcome.ret.injEq, Obj.wepData.injEq, and_true] at h1
    obtain ⟨hd, hσ⟩ := h1
    subst hd
    subst hσ
    decide
  exact ⟨d, σ', h1, rfl, rfl, rfl, hm, h3 exStoreCopy 3 rfl rfl rfl hm⟩

end Converter
